import Mathlib

/-!
Shallow embedding of the refresh-decision core of the `anserem` dynamic-DNS
agent. The repository ships two variant builds:

* `src/main.go` (namespace `MainGo` below): the external-lookup variant.
  Discovery is an HTTP GET to a client-ip service; the discovered address is
  the returned `ipString` with `"/128"` appended. Refresh state starts with
  `lastAddr = ""` and `lastRefresh = time.Now()` (the process start time).

* `src/cmd/anserem/app.go` (namespace `AppGo` below): the interface-scan
  variant. Discovery enumerates local interface addresses and filters them;
  refresh state starts with `lastAddr = nil` (a nil `net.Addr` interface
  value, modelled as `Option.none`) and `lastRefresh = time.UnixMilli(0)`.

Times and durations are modelled as `Int` (Go `time.Time` / `time.Duration`
arithmetic on int64 nanoseconds; realistic values are far from overflow, so
no modular reduction is applied). All the `time.Now()` calls inside a single
tick are modelled as one instant `now`. Outbound HTTP is modelled by a
response oracle mapping a request URL to the outcome of `http.Get`
(`.error` = transport error, `.ok body` = the response body read by
`io.ReadAll`); log statements and InfluxDB write points are not modelled
(they do not feed back into control flow or state).
-/

deriving instance DecidableEq for Except

namespace Anserem

/-- HTTP response oracle for one tick: URL of the `http.Get` call to its
transport outcome. -/
abbrev Respond := String → Except String String

namespace MainGo

/-- The flag set of `src/main.go` (`Options`): refresh tick period, forced
refresh interval, and the (required) dynv6 credentials. -/
structure Options where
  refreshInterval : Int
  forcedRefreshInterval : Int
  dynv6Host : String
  dynv6Token : String
deriving DecidableEq

/-- The module-global refresh state of `src/main.go` (lines 65-68):
`lastAddr` is a plain string, `lastRefresh` a timestamp. -/
structure State where
  lastAddr : String
  lastRefresh : Int
deriving DecidableEq

/-- Initial state of `src/main.go`: `lastAddr = ""` and
`lastRefresh = time.Now()` evaluated at process start. -/
def initState (startTime : Int) : State :=
  { lastAddr := "", lastRefresh := startTime }

/-- The success path of `Options.publicAddress` (src/main.go lines 199-236):
on a decoded response the returned address is `bdc.IpString` with the fixed
suffix `"/128"` appended by `fmt.Sprintf("%s/128", bdc.IpString)`. -/
def publicAddress (bdcIpString : String) : String :=
  bdcIpString ++ "/128"

/-- The dynv6 update URL built by `Options.refresh` (src/main.go
lines 242-247). -/
def refreshURL (o : Options) (addr : String) : String :=
  "https://dynv6.com/api/update?hostname=" ++ o.dynv6Host ++
    "&token=" ++ o.dynv6Token ++ "&ipv6=" ++ addr

/-- `Options.refresh` (src/main.go lines 238-279): issues one GET to the
dynv6 update endpoint and logs the response; errors are logged, never
returned, and state is not touched here. The result is the list of requests
issued, each with its transport outcome. -/
def refresh (o : Options) (respond : Respond) (addr : String) :
    List (String × Except String String) :=
  [(refreshURL o addr, respond (refreshURL o addr))]

/-- `Options.onTick` (src/main.go lines 159-197). `discovery` is the result
of `o.publicAddress()` (`.error` = it returned an error). On success:
`forced := time.Since(lastRefresh) > o.forcedRefreshInterval` (strict `>`),
`changed := lastAddr != addr`; if neither, return; otherwise call
`o.refresh(addr)` and then set `lastRefresh = now`, `lastAddr = addr`.
Returns the state after the tick and the provider requests issued. -/
def onTick (o : Options) (respond : Respond) (st : State)
    (discovery : Except String String) (now : Int) :
    State × List (String × Except String String) :=
  match discovery with
  | .error _ => (st, [])
  | .ok addr =>
    let forced : Bool := decide (now - st.lastRefresh > o.forcedRefreshInterval)
    let changed : Bool := st.lastAddr != addr
    if !forced && !changed then (st, [])
    else ({ lastAddr := addr, lastRefresh := now }, refresh o respond addr)

/-- The times at which `Options.start` (src/main.go lines 137-157) invokes
`onTick` when the ticker has fired `fires` times: the loop body runs only on
ticker fires (there is no call before the loop), and a `time.Ticker` with
period `refreshInterval` first fires one period after start. -/
def onTickTimes (o : Options) (startTime : Int) (fires : Nat) : List Int :=
  (List.range fires).map (fun (i : Nat) => startTime + ((i : Int) + 1) * o.refreshInterval)

end MainGo

namespace AppGo

/-- The flag set of `src/cmd/anserem/app.go` (`Options`): ip prefix filter,
intervals, and the optional DuckDNS and dynv6 credentials. -/
structure Options where
  ipPrefix : String
  refreshInterval : Int
  forcedRefreshInterval : Int
  duckHost : String
  duckToken : String
  dynv6Host : String
  dynv6Token : String
deriving DecidableEq

/-- `Options.hasDynv6` (app.go lines 120-122). -/
def hasDynv6 (o : Options) : Bool :=
  o.dynv6Host != "" && o.dynv6Token != ""

/-- `Options.hasDuckDns` (app.go lines 124-126). -/
def hasDuckDns (o : Options) : Bool :=
  o.duckHost != "" && o.duckToken != ""

/-- The module-global refresh state of app.go (lines 25-28): `lastAddr` is a
`net.Addr` interface value, initially nil (`none` here; `some s` holds the
value of `addr.String()`, the only way the code observes it), and
`lastRefresh` is initially `time.UnixMilli(0)` (the epoch, `0` here). -/
structure State where
  lastAddr : Option String
  lastRefresh : Int
deriving DecidableEq

/-- The initial refresh state of app.go: nil address, epoch timestamp. -/
def initState : State :=
  { lastAddr := none, lastRefresh := 0 }

/-- One entry of the `net.InterfaceAddrs()` result together with the
environment's answers about it: `raw` is `addr.String()`; `parsedIp` is the
result of `net.ParseCIDR(addr.String())` (`none` = parse error, `some ip`
= the ip's string form); `resolvable` is whether `net.LookupAddr(ip)`
succeeds; `isPrivate` is `ip.IsPrivate()`. -/
structure IfaceAddr where
  raw : String
  parsedIp : Option String
  resolvable : Bool
  isPrivate : Bool
deriving DecidableEq

/-- The error cases of `Options.publicIp` (app.go lines 153-179):
enumeration failure (line 156), a `net.ParseCIDR` error on a candidate
(line 164), or falling through the loop (line 178, which formats the
candidate list into the message). -/
inductive ResolveError where
  | enumFailed (msg : String)
  | parseFailed (raw : String)
  | noPublicAddress (addrs : List IfaceAddr)
deriving DecidableEq

/-- The loop of `Options.publicIp` (app.go lines 159-177) over the remaining
candidates; `all` is the full enumerated list kept for the fall-through
error message. A parse error returns immediately; an unresolvable candidate
is skipped; the first resolvable, non-private candidate whose ip string has
the configured prefix is returned together with its ip string. -/
def publicIpScan (o : Options) (all : List IfaceAddr) :
    List IfaceAddr → Except ResolveError (IfaceAddr × String)
  | [] => .error (.noPublicAddress all)
  | c :: rest =>
    match c.parsedIp with
    | none => .error (.parseFailed c.raw)
    | some ip =>
      if !c.resolvable then publicIpScan o all rest
      else if !c.isPrivate && ip.startsWith o.ipPrefix then .ok (c, ip)
      else publicIpScan o all rest

/-- `Options.publicIp` (app.go lines 153-179): `enum` is the result of
`net.InterfaceAddrs()`; on success the candidate loop runs. -/
def publicIp (o : Options) (enum : Except String (List IfaceAddr)) :
    Except ResolveError (IfaceAddr × String) :=
  match enum with
  | .error e => .error (.enumFailed e)
  | .ok addrs => publicIpScan o addrs addrs

/-- The dynv6 update URL built by `Options.refreshDynv6` (app.go
lines 247-252). -/
def dynv6URL (o : Options) (addr : String) : String :=
  "https://dynv6.com/api/update?hostname=" ++ o.dynv6Host ++
    "&token=" ++ o.dynv6Token ++ "&ipv6=" ++ addr

/-- The DuckDNS clear URL built by `Options.refreshDuckDNS` (app.go
lines 211-215). -/
def duckClearURL (o : Options) : String :=
  "https://www.duckdns.org/update?domains=" ++ o.duckHost ++
    "&token=" ++ o.duckToken ++ "&clear=true"

/-- The DuckDNS update URL built by `Options.refreshDuckDNS` (app.go
lines 223-228). -/
def duckUpdateURL (o : Options) (ip : String) : String :=
  "https://www.duckdns.org/update?domains=" ++ o.duckHost ++
    "&token=" ++ o.duckToken ++ "&ip=&ipv6=" ++ ip

/-- `Options.refreshDynv6` (app.go lines 244-266): one GET to the dynv6
update endpoint; the outcome is logged, never returned. Result: the
requests issued with their transport outcomes. -/
def refreshDynv6 (o : Options) (respond : Respond) (addr : String) :
    List (String × Except String String) :=
  [(dynv6URL o addr, respond (dynv6URL o addr))]

/-- `Options.refreshDuckDNS` (app.go lines 208-242): first a clear GET; a
transport error there logs and returns before the update GET is issued;
otherwise the update GET follows and its body is logged. -/
def refreshDuckDNS (o : Options) (respond : Respond) (ip : String) :
    List (String × Except String String) :=
  match respond (duckClearURL o) with
  | .error e => [(duckClearURL o, .error e)]
  | .ok body =>
    (duckClearURL o, .ok body) :: [(duckUpdateURL o ip, respond (duckUpdateURL o ip))]

/-- The outcome of one `Options.refresh` call: either a new state with the
list of provider requests issued, or the runtime panic that dereferences
the nil `lastAddr` interface (calling `lastAddr.String()` while `lastAddr`
is nil). -/
inductive TickOutcome where
  | ok (st : State) (requests : List (String × Except String String))
  | nilDeref
deriving DecidableEq

/-- The publish half of `Options.refresh` (app.go lines 196-205): state is
assigned first (`lastAddr = addr; lastRefresh = time.Now()`), then each
configured provider is called in order (dynv6, then DuckDNS). `addrRaw` is
`addr.String()`, `ip` is the ip string handed to DuckDNS. -/
def publish (o : Options) (respond : Respond) (addrRaw ip : String) (now : Int) :
    TickOutcome :=
  .ok { lastAddr := some addrRaw, lastRefresh := now }
    ((if hasDynv6 o then refreshDynv6 o respond addrRaw else []) ++
     (if hasDuckDns o then refreshDuckDNS o respond ip else []))

/-- `Options.refresh` (app.go lines 181-206). `discovery` is the result of
`o.publicIp()`. On error: log and return, state untouched. On success:
`force := time.Now().Sub(lastRefresh) >= o.forcedRefreshInterval` (`>=`);
the guard `!force && lastAddr.String() == addr.String()` short-circuits, so
`lastAddr.String()` is evaluated only when `force` is false — and panics
(nil interface dereference) when `lastAddr` is still nil. If the guard
holds, log and return unchanged; otherwise publish. -/
def refresh (o : Options) (respond : Respond) (st : State)
    (discovery : Except ResolveError (IfaceAddr × String)) (now : Int) :
    TickOutcome :=
  match discovery with
  | .error _ => .ok st []
  | .ok (c, ip) =>
    if now - st.lastRefresh ≥ o.forcedRefreshInterval then
      publish o respond c.raw ip now
    else
      match st.lastAddr with
      | none => .nilDeref
      | some la =>
        if la == c.raw then .ok st []
        else publish o respond c.raw ip now

/-- The times at which `Options.start` (app.go lines 129-151) invokes
`Options.refresh` when the ticker has fired `fires` times: once immediately
before the loop (line 140), then once per ticker fire, the first one period
after start. -/
def refreshCallTimes (o : Options) (startTime : Int) (fires : Nat) : List Int :=
  startTime ::
    (List.range fires).map (fun (i : Nat) => startTime + ((i : Int) + 1) * o.refreshInterval)

/-- `Options.start` (app.go lines 129-151) up to its run loop: if neither
provider is fully configured it returns the configuration error before the
ticker or any refresh call is created; otherwise the run loop produces the
refresh schedule `refreshCallTimes`. -/
def start (o : Options) (startTime : Int) (fires : Nat) :
    Except String (List Int) :=
  if !(hasDuckDns o) && !(hasDynv6 o) then
    .error "at least one dyn dns has to be configured"
  else
    .ok (refreshCallTimes o startTime fires)

end AppGo

/-! ## Helper lemmas -/

/-- The address returned by the external-lookup discovery always carries the
`"/128"` suffix, so it is never the empty string. -/
theorem publicAddress_ne_empty (s : String) : MainGo.publicAddress s ≠ "" := by
  intro h
  have hl := congrArg String.length h
  simp [MainGo.publicAddress, String.length_append] at hl
  exact absurd hl.2 (by decide)

/-- `AppGo.publish` never crashes: it is always an `ok` outcome carrying the
new state. -/
theorem publish_ne_nilDeref (o : AppGo.Options) (respond : Respond)
    (addrRaw ip : String) (now : Int) :
    AppGo.publish o respond addrRaw ip now ≠ .nilDeref := by
  simp [AppGo.publish]

/-! ## Claims -/

/-- C1: on every tick that triggers a publish (forced threshold reached or the
discovered address differs from the stored one), the tick ends with
`lastRefresh = now` and `lastAddr` = the discovered address, for every
response oracle — i.e. regardless of whether any provider HTTP call
succeeded or failed. First conjunct: the external-lookup variant
(`MainGo.onTick`); second: the interface-scan variant (`AppGo.refresh`). -/
theorem publish_updates_state_unconditionally :
    (∀ (o : MainGo.Options) (respond : Respond) (st : MainGo.State)
        (addr : String) (now : Int),
      (now - st.lastRefresh > o.forcedRefreshInterval ∨ st.lastAddr ≠ addr) →
      (MainGo.onTick o respond st (.ok addr) now).1 =
        { lastAddr := addr, lastRefresh := now }) ∧
    (∀ (o : AppGo.Options) (respond : Respond) (st : AppGo.State)
        (c : AppGo.IfaceAddr) (ip : String) (now : Int),
      (now - st.lastRefresh ≥ o.forcedRefreshInterval ∨
        (∃ la, st.lastAddr = some la ∧ la ≠ c.raw)) →
      ∃ reqs, AppGo.refresh o respond st (.ok (c, ip)) now =
        .ok { lastAddr := some c.raw, lastRefresh := now } reqs) := by
  constructor
  · intro o respond st addr now h
    rcases h with h | h
    · simp [MainGo.onTick, h]
    · simp [MainGo.onTick, bne_iff_ne, h]
  · intro o respond st c ip now h
    by_cases hf : now - st.lastRefresh ≥ o.forcedRefreshInterval
    · refine ⟨(if AppGo.hasDynv6 o then AppGo.refreshDynv6 o respond c.raw else []) ++
        (if AppGo.hasDuckDns o then AppGo.refreshDuckDNS o respond ip else []), ?_⟩
      simp [AppGo.refresh, hf, AppGo.publish]
    · rcases h with h | ⟨la, hla, hne⟩
      · exact absurd h hf
      · refine ⟨(if AppGo.hasDynv6 o then AppGo.refreshDynv6 o respond c.raw else []) ++
          (if AppGo.hasDuckDns o then AppGo.refreshDuckDNS o respond ip else []), ?_⟩
        simp [AppGo.refresh, hf, hla, beq_iff_eq, hne, AppGo.publish]

/-- Witness for C1: a concrete forced-and-changed tick in each variant, with
a response oracle that always fails — the state still advances. -/
theorem publish_updates_state_unconditionally_inst :
    (MainGo.onTick ⟨20, 120, "h", "t"⟩ (fun _ => .error "down")
        ⟨"", 0⟩ (.ok "1.2.3.4/128") 5).1 = ⟨"1.2.3.4/128", 5⟩ ∧
    ∃ reqs, AppGo.refresh ⟨"2a02:", 60, 3600, "", "", "h", "t"⟩ (fun _ => .error "down")
        ⟨some "2a02::1/64", 0⟩ (.ok (⟨"2a02::2/64", some "2a02::2", true, false⟩, "2a02::2")) 10 =
      .ok ⟨some "2a02::2/64", 10⟩ reqs :=
  ⟨publish_updates_state_unconditionally.1 ⟨20, 120, "h", "t"⟩ _ ⟨"", 0⟩ "1.2.3.4/128" 5
      (Or.inr (by decide)),
   publish_updates_state_unconditionally.2 ⟨"2a02:", 60, 3600, "", "", "h", "t"⟩ _
      ⟨some "2a02::1/64", 0⟩ ⟨"2a02::2/64", some "2a02::2", true, false⟩ "2a02::2" 10
      (Or.inr ⟨"2a02::1/64", rfl, by decide⟩)⟩

/-- C2: on a tick where discovery succeeds, the discovered address equals the
stored `lastAddr`, and the elapsed time since `lastRefresh` is strictly below
the forced-refresh interval, no provider request is issued and the state is
returned unchanged — in both variants. -/
theorem unchanged_not_forced_noop :
    (∀ (o : MainGo.Options) (respond : Respond) (st : MainGo.State) (now : Int),
      now - st.lastRefresh < o.forcedRefreshInterval →
      MainGo.onTick o respond st (.ok st.lastAddr) now = (st, [])) ∧
    (∀ (o : AppGo.Options) (respond : Respond) (st : AppGo.State)
        (c : AppGo.IfaceAddr) (ip : String) (now : Int),
      st.lastAddr = some c.raw →
      now - st.lastRefresh < o.forcedRefreshInterval →
      AppGo.refresh o respond st (.ok (c, ip)) now = .ok st []) := by
  constructor
  · intro o respond st now h
    simp [MainGo.onTick, not_lt.symm, h.asymm]
  · intro o respond st c ip now hla h
    simp [AppGo.refresh, not_le.mpr h, hla]

/-- Witness for C2: a concrete unchanged, unforced tick in each variant. -/
theorem unchanged_not_forced_noop_inst :
    MainGo.onTick ⟨20, 120, "h", "t"⟩ (fun _ => .ok "OK")
        ⟨"1.2.3.4/128", 0⟩ (.ok "1.2.3.4/128") 40 = (⟨"1.2.3.4/128", 0⟩, []) ∧
    AppGo.refresh ⟨"2a02:", 60, 3600, "", "", "h", "t"⟩ (fun _ => .ok "OK")
        ⟨some "2a02::1/64", 0⟩ (.ok (⟨"2a02::1/64", some "2a02::1", true, false⟩, "2a02::1")) 40 =
      .ok ⟨some "2a02::1/64", 0⟩ [] :=
  ⟨unchanged_not_forced_noop.1 ⟨20, 120, "h", "t"⟩ _ ⟨"1.2.3.4/128", 0⟩ 40 (by decide),
   unchanged_not_forced_noop.2 ⟨"2a02:", 60, 3600, "", "", "h", "t"⟩ _
      ⟨some "2a02::1/64", 0⟩ ⟨"2a02::1/64", some "2a02::1", true, false⟩ "2a02::1" 40
      rfl (by decide)⟩

/-- C5: on every tick whose discovery returns an error, both variants return
without issuing any provider request and without touching the state. -/
theorem discovery_error_leaves_state :
    (∀ (o : MainGo.Options) (respond : Respond) (st : MainGo.State)
        (e : String) (now : Int),
      MainGo.onTick o respond st (.error e) now = (st, [])) ∧
    (∀ (o : AppGo.Options) (respond : Respond) (st : AppGo.State)
        (e : AppGo.ResolveError) (now : Int),
      AppGo.refresh o respond st (.error e) now = .ok st []) :=
  ⟨fun _ _ _ _ _ => rfl, fun _ _ _ _ _ => rfl⟩

/-- C3 counterexample: in the external-lookup variant (src/main.go line 168,
`forced := time.Since(lastRefresh) > o.forcedRefreshInterval`), a tick
landing exactly on the forced threshold (elapsed 120 = interval 120) with an
unchanged address triggers no publish and leaves the state unchanged — the
comparison is strict `>`, not `>=` as the claim states for every variant. -/
theorem forced_tie_no_publish_mainGo :
    MainGo.onTick ⟨20, 120, "h", "t"⟩ (fun _ => .ok "OK")
      ⟨"1.2.3.4/128", 0⟩ (.ok "1.2.3.4/128") 120 = (⟨"1.2.3.4/128", 0⟩, []) := by
  decide

/-- C3 amended: the `>=` tie-break holds in the interface-scan variant
(`AppGo.refresh`, app.go line 191): elapsed time ≥ the interval triggers a
publish even with an unchanged address, including exact equality. In the
external-lookup variant (`MainGo.onTick`, main.go line 168) the comparison
is strict `>`: with an unchanged address a publish is triggered iff the
elapsed time strictly exceeds the interval. -/
theorem forced_threshold_semantics :
    (∀ (o : AppGo.Options) (respond : Respond) (st : AppGo.State)
        (c : AppGo.IfaceAddr) (ip : String) (now : Int),
      now - st.lastRefresh ≥ o.forcedRefreshInterval →
      ∃ reqs, AppGo.refresh o respond st (.ok (c, ip)) now =
        .ok { lastAddr := some c.raw, lastRefresh := now } reqs) ∧
    (∀ (o : MainGo.Options) (respond : Respond) (st : MainGo.State) (now : Int),
      (MainGo.onTick o respond st (.ok st.lastAddr) now).2 ≠ [] ↔
        now - st.lastRefresh > o.forcedRefreshInterval) := by
  constructor
  · intro o respond st c ip now hf
    refine ⟨(if AppGo.hasDynv6 o then AppGo.refreshDynv6 o respond c.raw else []) ++
      (if AppGo.hasDuckDns o then AppGo.refreshDuckDNS o respond ip else []), ?_⟩
    simp [AppGo.refresh, hf, AppGo.publish]
  · intro o respond st now
    by_cases hf : now - st.lastRefresh > o.forcedRefreshInterval
    · simp [MainGo.onTick, hf, MainGo.refresh]
    · simp [MainGo.onTick, hf]

/-- Witness for C3's amended theorem: a concrete tick landing exactly on the
threshold in the interface-scan variant publishes with an unchanged
address. -/
theorem forced_threshold_semantics_inst :
    ∃ reqs, AppGo.refresh ⟨"2a02:", 60, 3600, "", "", "h", "t"⟩ (fun _ => .ok "OK")
        ⟨some "2a02::1/64", 0⟩
        (.ok (⟨"2a02::1/64", some "2a02::1", true, false⟩, "2a02::1")) 3600 =
      .ok ⟨some "2a02::1/64", 3600⟩ reqs :=
  forced_threshold_semantics.1 ⟨"2a02:", 60, 3600, "", "", "h", "t"⟩ _
    ⟨some "2a02::1/64", 0⟩ ⟨"2a02::1/64", some "2a02::1", true, false⟩ "2a02::1" 3600
    (by decide)

/-- C4 counterexample: in the interface-scan variant the first tick's
sentinel is a nil `net.Addr`, not a value the comparison can classify as
changed. With a forced-refresh interval larger than the time elapsed since
the epoch (here 1000000 vs `now = 1000`), the first tick after startup with
a successful discovery evaluates `lastAddr.String()` on the nil interface
and crashes — no publish is triggered, refuting the claim that a publish
always happens on a successful first-tick discovery. -/
theorem first_tick_nil_sentinel_no_publish :
    AppGo.refresh ⟨"2a02:", 60, 1000000, "", "", "h", "t"⟩ (fun _ => .ok "OK")
      AppGo.initState
      (.ok (⟨"2a02::1/64", some "2a02::1", true, false⟩, "2a02::1")) 1000 =
      .nilDeref := by
  decide

/-- C4 amended: in the external-lookup variant the first-tick sentinel is the
empty string and every discovered address carries the `"/128"` suffix, so
`changed` is true and a publish is always triggered on a successful first
discovery, with the state advanced to the discovered address. In the
interface-scan variant the sentinel is nil and the first tick publishes
whenever discovery succeeds and the time since the epoch-initialized
`lastRefresh` has reached the forced interval (true for every realistic
configuration); the nil sentinel never makes `changed` true itself. -/
theorem first_tick_publish_conditions :
    (∀ (o : MainGo.Options) (respond : Respond) (bdcIp : String) (startTime now : Int),
      (MainGo.onTick o respond (MainGo.initState startTime)
          (.ok (MainGo.publicAddress bdcIp)) now).1 =
        { lastAddr := MainGo.publicAddress bdcIp, lastRefresh := now } ∧
      (MainGo.onTick o respond (MainGo.initState startTime)
          (.ok (MainGo.publicAddress bdcIp)) now).2 ≠ []) ∧
    (∀ (o : AppGo.Options) (respond : Respond) (c : AppGo.IfaceAddr)
        (ip : String) (now : Int),
      now ≥ o.forcedRefreshInterval →
      ∃ reqs, AppGo.refresh o respond AppGo.initState (.ok (c, ip)) now =
        .ok { lastAddr := some c.raw, lastRefresh := now } reqs) := by
  constructor
  · intro o respond bdcIp startTime now
    have hne : ("" : String) ≠ MainGo.publicAddress bdcIp :=
      fun h => publicAddress_ne_empty bdcIp h.symm
    constructor
    · simp [MainGo.onTick, MainGo.initState, bne_iff_ne, hne]
    · simp [MainGo.onTick, MainGo.initState, bne_iff_ne, hne, MainGo.refresh]
  · intro o respond c ip now hf
    have hf' : now - AppGo.initState.lastRefresh ≥ o.forcedRefreshInterval := by
      simpa [AppGo.initState] using hf
    refine ⟨(if AppGo.hasDynv6 o then AppGo.refreshDynv6 o respond c.raw else []) ++
      (if AppGo.hasDuckDns o then AppGo.refreshDuckDNS o respond ip else []), ?_⟩
    simp [AppGo.refresh, hf', AppGo.publish]

/-- Witness for C4's amended theorem: a concrete first tick in each variant
(the interface-scan one with the forced window already expired). -/
theorem first_tick_publish_conditions_inst :
    (MainGo.onTick ⟨20, 120, "h", "t"⟩ (fun _ => .ok "OK")
        (MainGo.initState 0) (.ok (MainGo.publicAddress "1.2.3.4")) 5).1 =
      ⟨MainGo.publicAddress "1.2.3.4", 5⟩ ∧
    ∃ reqs, AppGo.refresh ⟨"2a02:", 60, 3600, "", "", "h", "t"⟩ (fun _ => .ok "OK")
        AppGo.initState
        (.ok (⟨"2a02::1/64", some "2a02::1", true, false⟩, "2a02::1")) 5000 =
      .ok ⟨some "2a02::1/64", 5000⟩ reqs :=
  ⟨(first_tick_publish_conditions.1 ⟨20, 120, "h", "t"⟩ _ "1.2.3.4" 0 5).1,
   first_tick_publish_conditions.2 ⟨"2a02:", 60, 3600, "", "", "h", "t"⟩ _
      ⟨"2a02::1/64", some "2a02::1", true, false⟩ "2a02::1" 5000 (by decide)⟩

/-- C6: `AppGo.start` returns the configuration error — and never reaches the
run loop, so no refresh schedule is produced — exactly when neither
provider has both its host and its token configured; it proceeds to the run
loop exactly when at least one host+token pair is present. -/
theorem startup_requires_provider :
    ∀ (o : AppGo.Options) (startTime : Int) (fires : Nat),
      (AppGo.start o startTime fires =
          .error "at least one dyn dns has to be configured" ↔
        (AppGo.hasDuckDns o = false ∧ AppGo.hasDynv6 o = false)) ∧
      (AppGo.start o startTime fires =
          .ok (AppGo.refreshCallTimes o startTime fires) ↔
        (AppGo.hasDuckDns o = true ∨ AppGo.hasDynv6 o = true)) := by
  intro o startTime fires
  cases hduck : AppGo.hasDuckDns o <;> cases hdyn : AppGo.hasDynv6 o <;>
    simp [AppGo.start, hduck, hdyn]

/-- C7 counterexample: in the external-lookup variant (`MainGo.start`,
src/main.go lines 144-157) there is no refresh call before the loop: with
zero ticker fires no `onTick` invocation has happened, and the first
invocation comes only a full refresh interval (20) after start — refuting
the claim that the tick function runs once immediately at startup in this
variant. -/
theorem mainGo_no_initial_tick :
    MainGo.onTickTimes ⟨20, 120, "h", "t"⟩ 0 0 = [] ∧
    MainGo.onTickTimes ⟨20, 120, "h", "t"⟩ 0 1 = [20] := by
  constructor <;> rfl

/-- C7 amended: the interface-scan variant (`AppGo.start`) invokes its
refresh once immediately at startup and then once per ticker fire (`fires`
fires give `fires + 1` invocations, the first at the start time). The
external-lookup variant (`MainGo.start`) invokes `onTick` only on ticker
fires: `fires` fires give `fires` invocations, and with a positive refresh
interval none happens before one full interval has elapsed. -/
theorem initial_tick_schedule :
    (∀ (o : AppGo.Options) (s : Int) (n : Nat),
      (AppGo.refreshCallTimes o s n).head? = some s ∧
      (AppGo.refreshCallTimes o s n).length = n + 1) ∧
    (∀ (o : MainGo.Options) (s : Int) (n : Nat),
      (MainGo.onTickTimes o s n).length = n ∧
      (0 < o.refreshInterval →
        ∀ t ∈ MainGo.onTickTimes o s n, s + o.refreshInterval ≤ t)) := by
  constructor
  · intro o s n
    exact ⟨rfl, by
      simp only [AppGo.refreshCallTimes, List.length_cons, List.length_map,
        List.length_range]⟩
  · intro o s n
    refine ⟨by simp only [MainGo.onTickTimes, List.length_map, List.length_range], ?_⟩
    intro hr t ht
    simp only [MainGo.onTickTimes, List.mem_map, List.mem_range] at ht
    obtain ⟨i, _, rfl⟩ := ht
    have h0 : (0 : Int) ≤ (i : Int) := Int.natCast_nonneg i
    nlinarith [mul_nonneg h0 hr.le]

/-- Witness for C7's amended theorem: concrete schedules for both variants. -/
theorem initial_tick_schedule_inst :
    (AppGo.refreshCallTimes ⟨"2a02:", 60, 3600, "", "", "h", "t"⟩ 0 2).head? = some 0 ∧
    ∀ t ∈ MainGo.onTickTimes ⟨20, 120, "h", "t"⟩ 0 2, (0 : Int) + 20 ≤ t :=
  ⟨(initial_tick_schedule.1 ⟨"2a02:", 60, 3600, "", "", "h", "t"⟩ 0 2).1,
   (initial_tick_schedule.2 ⟨20, 120, "h", "t"⟩ 0 2).2 (by decide)⟩

/-- An error of the candidate loop of `publicIp` is either a parse failure
on an unparseable enumerated candidate or the fall-through
no-public-address error over the full enumerated list. -/
theorem publicIpScan_error_cases (o : AppGo.Options) (all : List AppGo.IfaceAddr) :
    ∀ (l : List AppGo.IfaceAddr) (e : AppGo.ResolveError),
      AppGo.publicIpScan o all l = .error e →
      (∃ c ∈ l, c.parsedIp = none ∧ e = .parseFailed c.raw) ∨
        e = .noPublicAddress all := by
  intro l
  induction l with
  | nil =>
    intro e h
    simp only [AppGo.publicIpScan, Except.error.injEq] at h
    exact Or.inr h.symm
  | cons c rest ih =>
    intro e h
    cases hp : c.parsedIp with
    | none =>
      simp only [AppGo.publicIpScan, hp, Except.error.injEq] at h
      exact Or.inl ⟨c, by simp, hp, h.symm⟩
    | some ip =>
      simp only [AppGo.publicIpScan, hp] at h
      by_cases hr : !c.resolvable
      · rw [if_pos hr] at h
        rcases ih e h with ⟨d, hd, hdp, hde⟩ | hno
        · exact Or.inl ⟨d, by simp [hd], hdp, hde⟩
        · exact Or.inr hno
      · rw [if_neg hr] at h
        by_cases hpub : !c.isPrivate && ip.startsWith o.ipPrefix
        · rw [if_pos hpub] at h
          exact absurd h (by simp)
        · rw [if_neg hpub] at h
          rcases ih e h with ⟨d, hd, hdp, hde⟩ | hno
          · exact Or.inl ⟨d, by simp [hd], hdp, hde⟩
          · exact Or.inr hno

/-- C8 counterexample: the interface-scan discovery has a third error mode
beyond the two the claim allows. An enumerated candidate whose string form
fails `net.ParseCIDR` (app.go lines 162-165) makes `publicIp` return that
parse error directly — which is neither the interface-enumeration error nor
the no-public-address-found error. -/
theorem publicIp_parse_error_third_mode :
    AppGo.publicIp ⟨"2a02:", 60, 3600, "", "", "h", "t"⟩
      (.ok [⟨"garbage", none, true, false⟩]) =
      .error (.parseFailed "garbage") := by
  decide

/-- C8 amended: `publicIp` fails in exactly three ways — the
interface-enumeration error when `net.InterfaceAddrs` errors, a CIDR-parse
error when some enumerated candidate's string form does not parse, and the
no-public-address-found error (over the enumerated list) when no candidate
passes the filters. -/
theorem publicIp_error_characterization :
    ∀ (o : AppGo.Options) (enum : Except String (List AppGo.IfaceAddr))
      (e : AppGo.ResolveError),
      AppGo.publicIp o enum = .error e →
      (∃ m, enum = .error m ∧ e = .enumFailed m) ∨
      (∃ l, enum = .ok l ∧ ∃ c ∈ l, c.parsedIp = none ∧ e = .parseFailed c.raw) ∨
      (∃ l, enum = .ok l ∧ e = .noPublicAddress l) := by
  intro o enum e h
  cases enum with
  | error m =>
    simp only [AppGo.publicIp, Except.error.injEq] at h
    exact Or.inl ⟨m, rfl, h.symm⟩
  | ok l =>
    simp only [AppGo.publicIp] at h
    rcases publicIpScan_error_cases o l l e h with hc | hno
    · exact Or.inr (Or.inl ⟨l, rfl, hc⟩)
    · exact Or.inr (Or.inr ⟨l, rfl, hno⟩)

/-- Witness for C8's amended theorem: a failed enumeration maps to the
enumeration error case. -/
theorem publicIp_error_characterization_inst :
    (∃ m, (Except.error "os down" : Except String (List AppGo.IfaceAddr)) =
        .error m ∧ (AppGo.ResolveError.enumFailed "os down") = .enumFailed m) ∨
    (∃ l, (Except.error "os down" : Except String (List AppGo.IfaceAddr)) = .ok l ∧
      ∃ c ∈ l, c.parsedIp = none ∧
        (AppGo.ResolveError.enumFailed "os down") = .parseFailed c.raw) ∨
    (∃ l, (Except.error "os down" : Except String (List AppGo.IfaceAddr)) = .ok l ∧
      (AppGo.ResolveError.enumFailed "os down") = .noPublicAddress l) :=
  publicIp_error_characterization ⟨"2a02:", 60, 3600, "", "", "h", "t"⟩
    (.error "os down") (.enumFailed "os down") rfl

/-- C9 counterexample: a triggered publish with DuckDNS as the sole
configured provider issues two HTTP GETs, not one — first the clear request
(which carries host and token but no address), then the update request. -/
theorem duckdns_publish_two_gets :
    AppGo.refresh ⟨"2a02:", 60, 3600, "dh", "dt", "", ""⟩ (fun _ => .ok "OK")
      AppGo.initState
      (.ok (⟨"2a02::1/64", some "2a02::1", true, false⟩, "2a02::1")) 5000 =
      .ok ⟨some "2a02::1/64", 5000⟩
        [("https://www.duckdns.org/update?domains=dh&token=dt&clear=true", .ok "OK"),
         ("https://www.duckdns.org/update?domains=dh&token=dt&ip=&ipv6=2a02::1", .ok "OK")] := by
  decide

/-- C9 amended: per triggered publish, the dynv6 provider is reached by
exactly one GET carrying host, token and address as query parameters (in
both variants, with the response body logged); the DuckDNS provider is
reached by two GETs — a clear request carrying host and token, then an
update request carrying host, token and the address — with the update
response body logged. With both providers configured a forced tick issues
exactly these requests in order. -/
theorem publish_request_shape :
    (∀ (o : MainGo.Options) (respond : Respond) (st : MainGo.State)
        (addr : String) (now : Int),
      now - st.lastRefresh > o.forcedRefreshInterval →
      (MainGo.onTick o respond st (.ok addr) now).2 =
        [(MainGo.refreshURL o addr, respond (MainGo.refreshURL o addr))]) ∧
    (∀ (o : AppGo.Options) (respond : Respond) (st : AppGo.State)
        (c : AppGo.IfaceAddr) (ip : String) (now : Int) (body : String),
      now - st.lastRefresh ≥ o.forcedRefreshInterval →
      AppGo.hasDynv6 o = true → AppGo.hasDuckDns o = true →
      respond (AppGo.duckClearURL o) = .ok body →
      AppGo.refresh o respond st (.ok (c, ip)) now =
        .ok { lastAddr := some c.raw, lastRefresh := now }
          [(AppGo.dynv6URL o c.raw, respond (AppGo.dynv6URL o c.raw)),
           (AppGo.duckClearURL o, .ok body),
           (AppGo.duckUpdateURL o ip, respond (AppGo.duckUpdateURL o ip))]) := by
  constructor
  · intro o respond st addr now hf
    simp [MainGo.onTick, hf, MainGo.refresh]
  · intro o respond st c ip now body hf hdyn hduck hclear
    simp [AppGo.refresh, hf, AppGo.publish, hdyn, hduck,
      AppGo.refreshDynv6, AppGo.refreshDuckDNS, hclear]

/-- Witness for C9's amended theorem: a concrete forced tick with both
providers configured issues the three requests. -/
theorem publish_request_shape_inst :
    AppGo.refresh ⟨"2a02:", 60, 3600, "dh", "dt", "vh", "vt"⟩ (fun _ => .ok "OK")
      ⟨some "2a02::1/64", 0⟩
      (.ok (⟨"2a02::1/64", some "2a02::1", true, false⟩, "2a02::1")) 5000 =
      .ok ⟨some "2a02::1/64", 5000⟩
        [(AppGo.dynv6URL ⟨"2a02:", 60, 3600, "dh", "dt", "vh", "vt"⟩ "2a02::1/64", .ok "OK"),
         (AppGo.duckClearURL ⟨"2a02:", 60, 3600, "dh", "dt", "vh", "vt"⟩, .ok "OK"),
         (AppGo.duckUpdateURL ⟨"2a02:", 60, 3600, "dh", "dt", "vh", "vt"⟩ "2a02::1", .ok "OK")] :=
  publish_request_shape.2 ⟨"2a02:", 60, 3600, "dh", "dt", "vh", "vt"⟩
    (fun _ => .ok "OK") ⟨some "2a02::1/64", 0⟩
    ⟨"2a02::1/64", some "2a02::1", true, false⟩ "2a02::1" 5000 "OK"
    (by decide) (by decide) (by decide) rfl

/-- C10: in the interface-scan variant, whenever discovery succeeds on a
tick where the forced condition fails and `lastAddr` still holds its
initial nil value, the comparison `lastAddr.String() == addr.String()`
dereferences the nil interface (the tick crashes instead of completing);
and conversely, under the precondition that the forced condition holds
whenever `lastAddr` is nil, that crash branch is unreachable. -/
theorem nil_sentinel_deref_reachability :
    (∀ (o : AppGo.Options) (respond : Respond) (st : AppGo.State)
        (c : AppGo.IfaceAddr) (ip : String) (now : Int),
      st.lastAddr = none →
      now - st.lastRefresh < o.forcedRefreshInterval →
      AppGo.refresh o respond st (.ok (c, ip)) now = .nilDeref) ∧
    (∀ (o : AppGo.Options) (respond : Respond) (st : AppGo.State)
        (discovery : Except AppGo.ResolveError (AppGo.IfaceAddr × String)) (now : Int),
      (st.lastAddr = none → now - st.lastRefresh ≥ o.forcedRefreshInterval) →
      AppGo.refresh o respond st discovery now ≠ .nilDeref) := by
  constructor
  · intro o respond st c ip now hla hf
    simp [AppGo.refresh, not_le.mpr hf, hla]
  · intro o respond st discovery now hpre
    cases discovery with
    | error e => simp [AppGo.refresh]
    | ok d =>
      obtain ⟨c, ip⟩ := d
      by_cases hf : now - st.lastRefresh ≥ o.forcedRefreshInterval
      · simpa [AppGo.refresh, hf] using publish_ne_nilDeref o respond c.raw ip now
      · cases hla : st.lastAddr with
        | none => exact absurd (hpre hla) hf
        | some la =>
          by_cases heq : la == c.raw
          · simp [AppGo.refresh, hf, hla, heq]
          · simpa [AppGo.refresh, hf, hla, heq] using
              publish_ne_nilDeref o respond c.raw ip now

/-- Witness for C10: a concrete unforced tick with the nil sentinel crashes,
and a concrete state satisfying the precondition does not. -/
theorem nil_sentinel_deref_reachability_inst :
    AppGo.refresh ⟨"2a02:", 60, 1000000, "", "", "h", "t"⟩ (fun _ => .ok "OK")
      ⟨none, 0⟩ (.ok (⟨"2a02::1/64", some "2a02::1", true, false⟩, "2a02::1")) 10 =
      .nilDeref ∧
    AppGo.refresh ⟨"2a02:", 60, 3600, "", "", "h", "t"⟩ (fun _ => .ok "OK")
      ⟨none, 0⟩ (.ok (⟨"2a02::1/64", some "2a02::1", true, false⟩, "2a02::1")) 4000 ≠
      .nilDeref :=
  ⟨nil_sentinel_deref_reachability.1 ⟨"2a02:", 60, 1000000, "", "", "h", "t"⟩ _
      ⟨none, 0⟩ ⟨"2a02::1/64", some "2a02::1", true, false⟩ "2a02::1" 10 rfl (by decide),
   nil_sentinel_deref_reachability.2 ⟨"2a02:", 60, 3600, "", "", "h", "t"⟩ _
      ⟨none, 0⟩ (.ok (⟨"2a02::1/64", some "2a02::1", true, false⟩, "2a02::1")) 4000
      (fun _ => by decide)⟩

end Anserem
